import Mathlib

/-!
Verification of the goldpinger probing core against its design spec.

The probe executors (`doDNSProbe`, `doTCPProbe`, `doHTTPProbe`) from
`pkg/goldpinger/probes.go` and the startup configuration handling from
`cmd/goldpinger/main.go` are shallowly embedded below.  Network effects
(name resolution, TCP dial, HTTP GET) are parameterised by explicit
oracle records describing what the network would do, together with the
true latency of the operation; the Go timeout primitives
(`context.WithTimeout`, `net.DialTimeout`, `http.Client.Timeout`) are
modelled with their documented semantics, including the Go rule that a
zero timeout on `net.DialTimeout` / `http.Client.Timeout` means "no
timeout".  Durations are natural numbers of nanoseconds.
-/

namespace Goldpinger

/-- A Go `net.Error`: carries the `Timeout()` and `Temporary()` bits and
the message. -/
structure NetError where
  timeout : Bool
  temporary : Bool
  msg : String
deriving DecidableEq, Repr

/-- A Go `error` value as the probe code distinguishes them: a
`net.Error` or any other error (e.g. one built by `fmt.Errorf`).
`*url.Error` and `*net.OpError` both implement `net.Error` (their
`Timeout()` / `Temporary()` delegate to the wrapped error), so the
probes' type switches always take the `net.Error` branch for them and
they fall under the `net` case here. -/
inductive GoError where
  | net (e : NetError)
  | other (msg : String)
deriving DecidableEq, Repr

/-- The error `context.WithTimeout` produces when the deadline passes:
`context.deadlineExceededError` reports `Timeout() = true` and
`Temporary() = true`. -/
def ctxDeadlineErr : GoError :=
  .net { timeout := true, temporary := true, msg := "context deadline exceeded" }

/-- The error a timed-out dial or request reports: an i/o timeout,
`Timeout() = true`. -/
def ioTimeoutErr : GoError :=
  .net { timeout := true, temporary := true, msg := "i/o timeout" }

/-- Whether a Go error is a timeout error (`net.Error` with
`Timeout() = true`). -/
def GoError.isTimeout : GoError → Bool
  | .net e => e.timeout
  | _ => false

/-- Oracle for one name resolution: the time the lookup would take and
the outcome (error, or the list of resolved IPs) absent any deadline. -/
structure DNSOracle where
  latency : Nat
  result : Except GoError (List String)
deriving Repr

/-- Result of `resolver.LookupHost` under a context carrying a
deadline: what was returned and how long the call took. -/
structure LookupRet where
  result : Except GoError (List String)
  elapsed : Nat
deriving Repr

/-- `resolver.LookupHost(ctx, addr)` where `ctx` is
`context.WithTimeout(Background, timeout)`.  A zero timeout makes the
context expire immediately; otherwise the lookup is cut off at the
deadline with `ctxDeadlineErr`. -/
def lookupHost (timeout : Nat) (o : DNSOracle) : LookupRet :=
  if timeout = 0 then
    { result := .error ctxDeadlineErr, elapsed := 0 }
  else if o.latency > timeout then
    { result := .error ctxDeadlineErr, elapsed := timeout }
  else
    { result := o.result, elapsed := o.latency }

/-- What a probe function returns to its caller: the Go `error` value
(`none` = nil = success) and the wall-clock time consumed. -/
structure ProbeRet where
  err : Option GoError
  elapsed : Nat
deriving Repr

/-- `doDNSProbe` from `pkg/goldpinger/probes.go`: resolve `addr` under
a context deadline of `timeout`; pass any resolver error through;
report a fresh `fmt.Errorf` error when resolution returned zero IPs;
nil error otherwise. -/
def doDNSProbe (addr : String) (timeout : Nat) (o : DNSOracle) : ProbeRet :=
  let lk := lookupHost timeout o
  match lk.result with
  | .error e => { err := some e, elapsed := lk.elapsed }
  | .ok ips =>
    if ips.length = 0 then
      { err := some (.other (addr ++ " was resolved to 0 ips")), elapsed := lk.elapsed }
    else
      { err := none, elapsed := lk.elapsed }

/-- Oracle for one TCP dial: the time the connect would take and the
outcome absent any deadline (`Unit` = a connection was established). -/
structure TCPOracle where
  latency : Nat
  result : Except GoError Unit
deriving Repr

/-- Result of `net.DialTimeout`. -/
structure DialRet where
  result : Except GoError Unit
  elapsed : Nat
deriving Repr

/-- `net.DialTimeout("tcp", addr, timeout)`.  Per the Go documentation
of `Dialer.Timeout`, a zero timeout means no timeout; otherwise the
dial is cut off at the deadline with an i/o timeout error. -/
def dialTimeout (timeout : Nat) (o : TCPOracle) : DialRet :=
  if timeout = 0 then
    { result := o.result, elapsed := o.latency }
  else if o.latency > timeout then
    { result := .error ioTimeoutErr, elapsed := timeout }
  else
    { result := o.result, elapsed := o.latency }

/-- The error-categorisation label `doTCPProbe` and `doHTTPProbe`
attach to a failed network operation: the type switch on `net.Error`
(with its `Timeout()` / `Temporary()` bits), then the catch-all
"unknown".  (`doHTTPProbe` has an extra `*url.Error` branch, but
`*url.Error` implements `net.Error`, so that branch is subsumed by
the first one.) -/
def categorizeErr : GoError → String
  | .net e => if e.timeout then "timeout" else if e.temporary then "temporary" else "network"
  | .other _ => "unknown"

/-- What `doTCPProbe` returns and does: the Go `error` value, the
log label attached to a failure, whether an established connection was
closed before returning, and the wall-clock time consumed. -/
structure TCPRet where
  err : Option GoError
  errType : Option String
  connClosed : Bool
  elapsed : Nat
deriving Repr

/-- `doTCPProbe` from `pkg/goldpinger/probes.go`: dial the address with
`net.DialTimeout`; on failure categorise the error for the log and
return it; on success close the connection (deferred) and return nil. -/
def doTCPProbe (timeout : Nat) (o : TCPOracle) : TCPRet :=
  let d := dialTimeout timeout o
  match d.result with
  | .error e =>
    { err := some e, errType := some (categorizeErr e), connClosed := false, elapsed := d.elapsed }
  | .ok _ =>
    { err := none, errType := none, connClosed := true, elapsed := d.elapsed }

/-- The part of a parsed `url.URL` the HTTP probe inspects. -/
structure ParsedURL where
  scheme : String
deriving DecidableEq, Repr

/-- The `tls.Config` the HTTP probe may install on its transport. -/
structure TLSConfig where
  insecureSkipVerify : Bool
deriving DecidableEq, Repr

/-- The `http.Transport` fields set by `doHTTPProbe` (constants apart
from the TLS client configuration, which is absent for plain http). -/
structure TransportConfig where
  dialerTimeout : Nat
  dialerKeepAlive : Nat
  maxIdleConns : Nat
  idleConnTimeout : Nat
  tlsHandshakeTimeout : Nat
  expectContinueTimeout : Nat
  tlsClientConfig : Option TLSConfig
deriving DecidableEq, Repr

/-- The `http.Client` the probe builds: overall request timeout plus
the transport. -/
structure ClientConfig where
  timeout : Nat
  transport : TransportConfig
deriving DecidableEq, Repr

/-- One second in nanoseconds. -/
def second : Nat := 1000000000

/-- The client `doHTTPProbe` configures for the given scheme
(`probes.go` lines 144-181): overall timeout from the caller; for
https the transport carries `TLSClientConfig{InsecureSkipVerify:
true}`, for http no `TLSClientConfig` is set. -/
def mkClient (scheme : String) (timeout : Nat) : ClientConfig :=
  { timeout := timeout
    transport :=
      { dialerTimeout := 30 * second
        dialerKeepAlive := 30 * second
        maxIdleConns := 100
        idleConnTimeout := 90 * second
        tlsHandshakeTimeout := 10 * second
        expectContinueTimeout := 1 * second
        tlsClientConfig :=
          if scheme = "https" then some { insecureSkipVerify := true } else none } }

/-- Oracle for one HTTP GET: the time the request would take, whether
the server's certificate would pass verification, and the outcome
absent any deadline (a status code, or a transport error). -/
structure HTTPOracle where
  latency : Nat
  certValid : Bool
  result : Except GoError Nat
deriving Repr

/-- Result of `client.Get`. -/
structure GetRet where
  result : Except GoError Nat
  elapsed : Nat
deriving Repr

/-- The TLS verification failure the standard library reports for an
untrusted certificate: a `*url.Error` wrapping an x509 error, hence a
`net.Error` with `Timeout()` and `Temporary()` both false. -/
def certificateErr : GoError :=
  .net { timeout := false, temporary := false, msg := "tls: failed to verify certificate" }

/-- A refused connection: a `net.Error` that is neither a timeout nor
temporary. -/
def connRefusedErr : GoError :=
  .net { timeout := false, temporary := false, msg := "connection refused" }

/-- `client.Get(addr)` for a client built by the probe.  Certificate
verification applies only when the scheme is https and the transport
does not carry `InsecureSkipVerify = true`.  Per the Go documentation
of `http.Client.Timeout`, a zero timeout means no timeout; otherwise
the request is cut off at the deadline with an i/o timeout error. -/
def clientGet (cfg : ClientConfig) (scheme : String) (o : HTTPOracle) : GetRet :=
  let verifyCert := scheme = "https" ∧
    (cfg.transport.tlsClientConfig.map TLSConfig.insecureSkipVerify ≠ some true)
  let base : Except GoError Nat :=
    if verifyCert ∧ ¬ o.certValid then .error certificateErr else o.result
  if cfg.timeout = 0 then
    { result := base, elapsed := o.latency }
  else if o.latency > cfg.timeout then
    { result := .error ioTimeoutErr, elapsed := cfg.timeout }
  else
    { result := base, elapsed := o.latency }

/-- What `doHTTPProbe` returns and does: the Go `error` value, the log
label attached to a failed request, whether a GET request was issued
at all, and the wall-clock time consumed. -/
structure HTTPRet where
  err : Option GoError
  errType : Option String
  requested : Bool
  elapsed : Nat
deriving Repr

/-- `doHTTPProbe` from `pkg/goldpinger/probes.go`: parse the address
(the parse outcome of `url.Parse(addr)` is supplied as `parse`); bail
out with the parse error, or with a fresh scheme error when the scheme
is neither http nor https, before any request; otherwise build the
client with `mkClient` and issue the GET; categorise and return a
request error; fail with a fresh error carrying the status code when
it is not 200; nil error otherwise. -/
def doHTTPProbe (addr : String) (timeout : Nat)
    (parse : Except GoError ParsedURL) (o : HTTPOracle) : HTTPRet :=
  match parse with
  | .error e =>
    { err := some e, errType := none, requested := false, elapsed := 0 }
  | .ok u =>
    if u.scheme ≠ "http" ∧ u.scheme ≠ "https" then
      { err := some (.other ("invalid url scheme: '" ++ u.scheme ++ "' in address"))
        errType := none, requested := false, elapsed := 0 }
    else
      let client := mkClient u.scheme timeout
      let g := clientGet client u.scheme o
      match g.result with
      | .error e =>
        { err := some e, errType := some (categorizeErr e), requested := true
          elapsed := g.elapsed }
      | .ok status =>
        if status ≠ 200 then
          { err := some (.other (addr ++ " returned non-200 resp: " ++ toString status))
            errType := none, requested := true, elapsed := g.elapsed }
        else
          { err := none, errType := none, requested := true, elapsed := g.elapsed }

/-- What the startup ipVersion handling (`cmd/goldpinger/main.go`
lines 168-177) does: the resulting `IPVersions` configuration, which
log lines were emitted, and whether startup was halted before serving
(`logger.Error` does not halt; only `logger.Fatal` would). -/
structure IPVersionsRet where
  ipVersions : List String
  loggedDefaulted : Bool
  loggedMultiWarn : Bool
  loggedUnknownError : Bool
  halted : Bool
deriving DecidableEq, Repr

/-- The ipVersion handling in `main`: default an unset list to
`["4"]`, warn when several versions are given, and log an error-level
message (without halting and without changing the value) when the
first version is neither "4" nor "6"; `main` then proceeds to
`ConfigureAPI`, `StartUpdater` and `Serve`. -/
def handleIPVersions (ipVersions : List String) : IPVersionsRet :=
  let vs := if ipVersions.isEmpty then ["4"] else ipVersions
  let v0 := vs.headD "4"
  { ipVersions := vs
    loggedDefaulted := ipVersions.isEmpty
    loggedMultiWarn := vs.length > 1
    loggedUnknownError := v0 ≠ "4" ∧ v0 ≠ "6"
    halted := false }

/-- Reduce an unbounded integer to the 64-bit two's-complement value a
Go `int64` computation yields. -/
def wrap64 (x : Int) : Int :=
  (x + 2 ^ 63) % 2 ^ 64 - 2 ^ 63

/-- `time.Duration(ms) * time.Millisecond` as Go computes it on
`int64` nanoseconds. -/
def msToDuration (ms : Int) : Int :=
  wrap64 (ms * 1000000)

/-- The timeout-related fields of `GoldpingerConfig` that `main`'s
deprecated-flag handling reads and writes.  Durations are `int64`
nanoseconds, the `…Ms` fields `int64` milliseconds. -/
structure TimeoutConfig where
  pingTimeout : Int
  pingTimeoutMs : Int
  checkTimeout : Int
  checkTimeoutMs : Int
  checkAllTimeout : Int
  checkAllTimeoutMs : Int
deriving DecidableEq, Repr

/-- The deprecated-flag handling in `main` (`cmd/goldpinger/main.go`
lines 179-194): each of the three duration options that is zero is
replaced by the corresponding deprecated millisecond flag converted to
a duration; a non-zero option is left alone. -/
def handleDeprecatedFlags (c : TimeoutConfig) : TimeoutConfig :=
  let c1 := if c.pingTimeout = 0
    then { c with pingTimeout := msToDuration c.pingTimeoutMs } else c
  let c2 := if c1.checkTimeout = 0
    then { c1 with checkTimeout := msToDuration c1.checkTimeoutMs } else c1
  if c2.checkAllTimeout = 0
    then { c2 with checkAllTimeout := msToDuration c2.checkAllTimeoutMs } else c2

/-- A probe outcome as the spec's data model records it. -/
structure ProbeOutcome where
  ok : Bool
  errorKind : String
  errorDetail : String
  startedAt : Nat
  duration : Nat
deriving DecidableEq, Repr

/-- One peer's result in a check round, per the spec's data model. -/
structure NeighbourResult where
  peerAddress : String
  outcome : ProbeOutcome
deriving DecidableEq, Repr

/-- One cached external-target result, per the spec's data model. -/
structure CacheEntry where
  targetAddress : String
  lastOutcome : ProbeOutcome
  lastUpdated : Nat
deriving DecidableEq, Repr

/-- The published cluster snapshot, per the spec's data model. -/
structure ClusterSnapshot where
  neighbours : List NeighbourResult
  externals : List CacheEntry
  healthy : Bool
  generatedAt : Nat
deriving DecidableEq, Repr

/-- Modelled from the spec: the Cluster State Aggregator's health
verdict (the repository's `updater.go` with `updateCounters` is not
among the provided sources).  "`healthy` is computed as: true if and
only if every `NeighbourResult.outcome.ok` is true (empty peer set is
defined as healthy=true — no peers to fail)". -/
def aggregateHealthy (neighbours : List NeighbourResult) : Bool :=
  neighbours.all fun n => n.outcome.ok

/-- Modelled from the spec: `aggregate(neighbours, externalsSnapshot)
-> ClusterSnapshot`, a pure function of its inputs plus a generation
timestamp; external results are carried through unchanged and play no
role in the health boolean. -/
def aggregate (neighbours : List NeighbourResult) (externals : List CacheEntry)
    (generatedAt : Nat) : ClusterSnapshot :=
  { neighbours := neighbours
    externals := externals
    healthy := aggregateHealthy neighbours
    generatedAt := generatedAt }

/-- Helper: every `Option` is `none` or `some`. -/
theorem option_none_or_some {α : Type} (o : Option α) : o = none ∨ ∃ a, o = some a := by
  cases o with
  | none => exact Or.inl rfl
  | some a => exact Or.inr ⟨a, rfl⟩

/-- Claim C1: the aggregated health boolean is a pure function of the
neighbour results only: it is true iff every neighbour's outcome is
ok, the empty neighbour set is healthy, and changing only the external
results (keeping neighbours and the timestamp fixed) never changes it. -/
theorem aggregate_healthy_only_neighbours (neighbours : List NeighbourResult)
    (externals ext : List CacheEntry) (t : Nat) :
    ((aggregate neighbours externals t).healthy = true ↔
      ∀ n ∈ neighbours, n.outcome.ok = true) ∧
    (aggregate [] externals t).healthy = true ∧
    (aggregate neighbours externals t).healthy = (aggregate neighbours ext t).healthy := by
  refine ⟨?_, ?_, rfl⟩
  · simp [aggregate, aggregateHealthy, List.all_eq_true]
  · simp [aggregate, aggregateHealthy]

/-- Claim C1, witness at a concrete input: the empty neighbour set is
healthy and a failing external entry does not change the verdict. -/
theorem aggregate_healthy_only_neighbours_witness :
    (((aggregate [] [] 7).healthy = true ↔
      ∀ n ∈ ([] : List NeighbourResult), n.outcome.ok = true) ∧
    (aggregate [] [] 7).healthy = true ∧
    (aggregate [] [] 7).healthy =
      (aggregate []
        [{ targetAddress := "10.0.0.9:443"
           lastOutcome := { ok := false, errorKind := "connection", errorDetail := "refused"
                            startedAt := 0, duration := 1 }
           lastUpdated := 3 }] 7).healthy) :=
  aggregate_healthy_only_neighbours [] []
    [{ targetAddress := "10.0.0.9:443"
       lastOutcome := { ok := false, errorKind := "connection", errorDetail := "refused"
                        startedAt := 0, duration := 1 }
       lastUpdated := 3 }] 7

/-- Claim C9, counterexample: an ipVersion of "5" (neither 4 nor 6) is
not rejected at startup: the handling logs an error-level message but
does not halt and keeps the unrecognized value, so startup proceeds to
serving. -/
theorem handleIPVersions_no_reject_counterexample :
    ¬ (handleIPVersions ["5"]).halted = true ∧
    (handleIPVersions ["5"]).loggedUnknownError = true ∧
    (handleIPVersions ["5"]).ipVersions = ["5"] := by
  decide

/-- Claim C9, amended: a configured first IP version that is neither
"4" nor "6" causes an error-level log line at startup, but startup is
never halted by this check and the configured value is kept; an unset
list defaults to ["4"]. -/
theorem handleIPVersions_logs_but_continues (ipVersions : List String) :
    (handleIPVersions ipVersions).halted = false ∧
    (handleIPVersions ipVersions).ipVersions =
      (if ipVersions.isEmpty then ["4"] else ipVersions) ∧
    ((handleIPVersions ipVersions).loggedUnknownError = true ↔
      ((if ipVersions.isEmpty then ["4"] else ipVersions).headD "4" ≠ "4" ∧
       (if ipVersions.isEmpty then ["4"] else ipVersions).headD "4" ≠ "6")) := by
  refine ⟨rfl, rfl, ?_⟩
  simp [handleIPVersions]

/-- Claim C9 amended, witness at a concrete input: a recognized
version "6" produces no error log and startup proceeds. -/
theorem handleIPVersions_logs_but_continues_witness :
    ((handleIPVersions ["6"]).halted = false ∧
    (handleIPVersions ["6"]).ipVersions =
      (if (["6"] : List String).isEmpty then ["4"] else ["6"]) ∧
    ((handleIPVersions ["6"]).loggedUnknownError = true ↔
      ((if (["6"] : List String).isEmpty then ["4"] else ["6"]).headD "4" ≠ "4" ∧
       (if (["6"] : List String).isEmpty then ["4"] else ["6"]).headD "4" ≠ "6"))) :=
  handleIPVersions_logs_but_continues ["6"]

/-- Claim C10: after the deprecated-flag handling, each of the three
duration options equals the corresponding deprecated millisecond flag
converted to a duration when it was zero, and is left unchanged when
it was non-zero; the millisecond flags themselves are untouched. -/
theorem handleDeprecatedFlags_fallback (c : TimeoutConfig) :
    ((handleDeprecatedFlags c).pingTimeout =
      if c.pingTimeout = 0 then msToDuration c.pingTimeoutMs else c.pingTimeout) ∧
    ((handleDeprecatedFlags c).checkTimeout =
      if c.checkTimeout = 0 then msToDuration c.checkTimeoutMs else c.checkTimeout) ∧
    ((handleDeprecatedFlags c).checkAllTimeout =
      if c.checkAllTimeout = 0 then msToDuration c.checkAllTimeoutMs else c.checkAllTimeout) ∧
    (handleDeprecatedFlags c).pingTimeoutMs = c.pingTimeoutMs ∧
    (handleDeprecatedFlags c).checkTimeoutMs = c.checkTimeoutMs ∧
    (handleDeprecatedFlags c).checkAllTimeoutMs = c.checkAllTimeoutMs := by
  unfold handleDeprecatedFlags
  split_ifs <;> simp_all

/-- Claim C2, counterexample: with a timeout of zero the TCP probe is
not bounded by the timeout: `net.DialTimeout` treats a zero timeout as
"no timeout", so a dial whose connect takes 1ns consumes 1ns, which
exceeds the requested bound of 0. -/
theorem probe_timeout_zero_counterexample :
    ¬ (doTCPProbe 0 { latency := 1, result := .ok () }).elapsed ≤ 0 := by
  decide

/-- Helper: the client the probe builds carries the caller's timeout. -/
theorem mkClient_timeout (scheme : String) (timeout : Nat) :
    (mkClient scheme timeout).timeout = timeout := rfl

/-- Helper: the DNS probe's reported duration is that of the lookup. -/
theorem doDNSProbe_elapsed (addr : String) (timeout : Nat) (o : DNSOracle) :
    (doDNSProbe addr timeout o).elapsed = (lookupHost timeout o).elapsed := by
  unfold doDNSProbe
  rcases h : (lookupHost timeout o).result with e | ips
  · simp [h]
  · simp [h]
    split
    all_goals rfl

/-- Helper: a lookup under a context deadline never takes longer than
the deadline. -/
theorem lookupHost_elapsed_le (timeout : Nat) (o : DNSOracle) :
    (lookupHost timeout o).elapsed ≤ timeout := by
  unfold lookupHost
  split_ifs
  all_goals simp
  all_goals omega

/-- Helper: the TCP probe's reported duration is that of the dial. -/
theorem doTCPProbe_elapsed (timeout : Nat) (o : TCPOracle) :
    (doTCPProbe timeout o).elapsed = (dialTimeout timeout o).elapsed := by
  unfold doTCPProbe
  rcases h : (dialTimeout timeout o).result with e | u
  all_goals simp [h]

/-- Helper: a dial with a non-zero timeout never takes longer than it. -/
theorem dialTimeout_elapsed_le (timeout : Nat) (o : TCPOracle) (h : timeout ≠ 0) :
    (dialTimeout timeout o).elapsed ≤ timeout := by
  unfold dialTimeout
  split_ifs <;> simp <;> omega

/-- Helper: a GET through a client with a non-zero timeout never takes
longer than the client's timeout. -/
theorem clientGet_elapsed_le (cfg : ClientConfig) (scheme : String) (o : HTTPOracle)
    (h : cfg.timeout ≠ 0) : (clientGet cfg scheme o).elapsed ≤ cfg.timeout := by
  simp only [clientGet]
  rw [if_neg h]
  rcases Nat.lt_or_ge cfg.timeout o.latency with hl | hl
  · rw [if_pos hl]
  · rw [if_neg (Nat.not_lt.mpr hl)]
    exact hl

/-- Helper: the HTTP probe with a non-zero timeout never takes longer
than the timeout. -/
theorem doHTTPProbe_elapsed_le (addr : String) (timeout : Nat)
    (parse : Except GoError ParsedURL) (o : HTTPOracle) (h : timeout ≠ 0) :
    (doHTTPProbe addr timeout parse o).elapsed ≤ timeout := by
  have hg : (clientGet (mkClient "http" timeout) "http" o).elapsed ≤ timeout :=
    clientGet_elapsed_le _ _ _ (by simpa [mkClient_timeout] using h)
  unfold doHTTPProbe
  rcases parse with e | u
  · simp
  · simp only
    split
    · simp
    · have hgu : (clientGet (mkClient u.scheme timeout) u.scheme o).elapsed ≤ timeout :=
        clientGet_elapsed_le _ _ _ (by simpa [mkClient_timeout] using h)
      rcases hres : (clientGet (mkClient u.scheme timeout) u.scheme o).result with e | status
      · simpa [hres] using hgu
      · simp only [hres]
        split <;> simpa using hgu

/-- Claim C2, amended: for every positive timeout, each probe kind
consumes at most that timeout of wall-clock time before returning: the
DNS lookup is cut off by a context deadline equal to the timeout, the
TCP dial by `net.DialTimeout`'s bound, and the HTTP request by the
client's overall timeout, which is set to the given timeout. -/
theorem probe_elapsed_le_timeout (addr : String) (timeout : Nat) (h : 0 < timeout)
    (od : DNSOracle) (ot : TCPOracle)
    (parse : Except GoError ParsedURL) (oh : HTTPOracle) :
    (doDNSProbe addr timeout od).elapsed ≤ timeout ∧
    (doTCPProbe timeout ot).elapsed ≤ timeout ∧
    (doHTTPProbe addr timeout parse oh).elapsed ≤ timeout ∧
    (∀ scheme, (mkClient scheme timeout).timeout = timeout) := by
  have hne : timeout ≠ 0 := Nat.pos_iff_ne_zero.mp h
  refine ⟨?_, ?_, doHTTPProbe_elapsed_le addr timeout parse oh hne, fun _ => rfl⟩
  · rw [doDNSProbe_elapsed]
    exact lookupHost_elapsed_le timeout od
  · rw [doTCPProbe_elapsed]
    exact dialTimeout_elapsed_le timeout ot hne

/-- Claim C2 amended, witness at a concrete input. -/
theorem probe_elapsed_le_timeout_witness :
    (doDNSProbe "http://example.com" 5 { latency := 9, result := .ok ["10.0.0.1"] }).elapsed ≤ 5 ∧
    (doTCPProbe 5 { latency := 9, result := .ok () }).elapsed ≤ 5 ∧
    (doHTTPProbe "http://example.com" 5 (.ok { scheme := "http" })
        { latency := 9, certValid := true, result := .ok 200 }).elapsed ≤ 5 ∧
    (∀ scheme, (mkClient scheme 5).timeout = 5) :=
  probe_elapsed_le_timeout "http://example.com" 5 (by decide)
    { latency := 9, result := .ok ["10.0.0.1"] }
    { latency := 9, result := .ok () }
    (.ok { scheme := "http" })
    { latency := 9, certValid := true, result := .ok 200 }

/-- Claim C3: when the lookup completes without a transport error but
returns zero addresses, the DNS probe fails with the distinct
resolved-to-0-ips error, which is not a timeout error; any resolver
error (timeout or transport) is passed through unchanged, so a timeout
failure stays a timeout and a transport failure stays a transport
error; and the probe succeeds iff resolution returned at least one
address. -/
theorem doDNSProbe_outcome (addr : String) (timeout : Nat) (o : DNSOracle) :
    ((lookupHost timeout o).result = .ok [] →
      (doDNSProbe addr timeout o).err =
        some (.other (addr ++ " was resolved to 0 ips")) ∧
      ∀ g, (doDNSProbe addr timeout o).err = some g → g.isTimeout = false) ∧
    (∀ e, (lookupHost timeout o).result = .error e →
      (doDNSProbe addr timeout o).err = some e) ∧
    ((doDNSProbe addr timeout o).err = none ↔
      ∃ ips, (lookupHost timeout o).result = .ok ips ∧ ips ≠ []) := by
  refine ⟨?_, ?_, ?_⟩
  · intro hz
    simp [doDNSProbe, hz, GoError.isTimeout]
  · intro e he
    simp [doDNSProbe, he]
  · rcases hres : (lookupHost timeout o).result with e | ips
    · simp [doDNSProbe, hres]
    · by_cases hips : ips = []
      · subst hips
        simp [doDNSProbe, hres]
      · simp [doDNSProbe, hres, hips]

/-- Claim C3, witness at a concrete input: a lookup that completes with
zero addresses yields the resolved-to-0-ips error. -/
theorem doDNSProbe_outcome_witness :
    (doDNSProbe "svc.example" 5 { latency := 3, result := .ok [] }).err =
      some (.other ("svc.example" ++ " was resolved to 0 ips")) :=
  ((doDNSProbe_outcome "svc.example" 5 { latency := 3, result := .ok [] }).1 rfl).1

/-- Claim C7, counterexample: a dial failing with a connection-refused
error (a non-timeout `net.Error`) is categorized as "network", not as
"connection" (and not as "timeout"): the code's non-timeout categories
are "temporary", "network" and "unknown"; no "connection" category
exists. -/
theorem doTCPProbe_connection_kind_counterexample :
    ¬ ((doTCPProbe 5 { latency := 1, result := .error connRefusedErr }).errType = some "timeout" ∨
       (doTCPProbe 5 { latency := 1, result := .error connRefusedErr }).errType = some "connection") := by
  decide

/-- Claim C7, amended: for every positive timeout, the TCP probe
succeeds iff a connection is established within the timeout; on
success the established connection is closed before the probe returns;
a dial that outlasts the deadline fails with the i/o timeout error and
is categorized "timeout"; in general a failure is categorized
"timeout" exactly when its error is a timeout error, and otherwise
with one of the non-timeout categories "temporary", "network" or
"unknown". -/
theorem doTCPProbe_outcome (timeout : Nat) (o : TCPOracle) (h : 0 < timeout) :
    ((doTCPProbe timeout o).err = none ↔ o.latency ≤ timeout ∧ o.result = .ok ()) ∧
    ((doTCPProbe timeout o).connClosed = true ↔ (doTCPProbe timeout o).err = none) ∧
    (o.latency > timeout →
      (doTCPProbe timeout o).err = some ioTimeoutErr ∧
      (doTCPProbe timeout o).errType = some "timeout") ∧
    (∀ e, (doTCPProbe timeout o).err = some e →
      (doTCPProbe timeout o).errType = some (categorizeErr e) ∧
      (categorizeErr e = "timeout" ↔ e.isTimeout = true) ∧
      (e.isTimeout = false →
        categorizeErr e = "temporary" ∨ categorizeErr e = "network" ∨
        categorizeErr e = "unknown")) := by
  have hne : timeout ≠ 0 := Nat.pos_iff_ne_zero.mp h
  have hcat : ∀ e : GoError, (categorizeErr e = "timeout" ↔ e.isTimeout = true) ∧
      (e.isTimeout = false →
        categorizeErr e = "temporary" ∨ categorizeErr e = "network" ∨
        categorizeErr e = "unknown") := by
    intro e
    rcases e with ⟨t, tmp, m⟩ | m
    · cases t <;> cases tmp <;> simp [categorizeErr, GoError.isTimeout]
    · simp [categorizeErr, GoError.isTimeout]
  by_cases hl : o.latency > timeout
  · have hd : dialTimeout timeout o =
        { result := .error ioTimeoutErr, elapsed := timeout } := by
      unfold dialTimeout
      rw [if_neg hne, if_pos hl]
    have herr : (doTCPProbe timeout o).err = some ioTimeoutErr := by
      simp [doTCPProbe, hd]
    have htyp : (doTCPProbe timeout o).errType = some (categorizeErr ioTimeoutErr) := by
      simp [doTCPProbe, hd]
    have hcl : (doTCPProbe timeout o).connClosed = false := by
      simp [doTCPProbe, hd]
    refine ⟨?_, ?_, ?_, ?_⟩
    · rw [herr]
      simp
      omega
    · rw [herr, hcl]
      simp
    · intro _
      exact ⟨herr, htyp⟩
    · intro g hg
      obtain rfl := Option.some.inj (herr.symm.trans hg)
      exact ⟨htyp, hcat ioTimeoutErr⟩
  · have hd : dialTimeout timeout o = { result := o.result, elapsed := o.latency } := by
      unfold dialTimeout
      rw [if_neg hne, if_neg hl]
    rcases hres : o.result with e | u
    · have herr : (doTCPProbe timeout o).err = some e := by
        simp [doTCPProbe, hd, hres]
      have htyp : (doTCPProbe timeout o).errType = some (categorizeErr e) := by
        simp [doTCPProbe, hd, hres]
      have hcl : (doTCPProbe timeout o).connClosed = false := by
        simp [doTCPProbe, hd, hres]
      refine ⟨?_, ?_, ?_, ?_⟩
      · rw [herr]
        simp [hres]
      · rw [herr, hcl]
        simp
      · intro hcon
        exact absurd hcon hl
      · intro g hg
        obtain rfl := Option.some.inj (herr.symm.trans hg)
        exact ⟨htyp, hcat e⟩
    · have herr : (doTCPProbe timeout o).err = none := by
        simp [doTCPProbe, hd, hres]
      have hcl : (doTCPProbe timeout o).connClosed = true := by
        simp [doTCPProbe, hd, hres]
      refine ⟨?_, ?_, ?_, ?_⟩
      · rw [herr]
        simp [hres]
        omega
      · rw [herr, hcl]
        simp
      · intro hcon
        exact absurd hcon hl
      · intro g hg
        rw [herr] at hg
        exact absurd hg (by simp)

/-- Claim C7 amended, witness at a concrete input: a dial established
within the timeout succeeds and the connection is closed. -/
theorem doTCPProbe_outcome_witness :
    ((doTCPProbe 5 { latency := 3, result := .ok () }).err = none ↔
      3 ≤ 5 ∧ (Except.ok () : Except GoError Unit) = .ok ()) ∧
    ((doTCPProbe 5 { latency := 3, result := .ok () }).connClosed = true ↔
      (doTCPProbe 5 { latency := 3, result := .ok () }).err = none) :=
  let t := doTCPProbe_outcome 5 { latency := 3, result := .ok () } (by decide)
  ⟨t.1, t.2.1⟩

/-- Claim C4: when the GET request completes with a response, the HTTP
probe succeeds iff the status code is exactly 200; any other status
code fails with an error recording the numeric status code. -/
theorem doHTTPProbe_status (addr : String) (timeout : Nat) (u : ParsedURL)
    (o : HTTPOracle) (status : Nat)
    (hs : u.scheme = "http" ∨ u.scheme = "https")
    (hg : (clientGet (mkClient u.scheme timeout) u.scheme o).result = .ok status) :
    ((doHTTPProbe addr timeout (.ok u) o).err = none ↔ status = 200) ∧
    (status ≠ 200 →
      (doHTTPProbe addr timeout (.ok u) o).err =
        some (.other (addr ++ " returned non-200 resp: " ++ toString status))) := by
  have hval : ¬ (u.scheme ≠ "http" ∧ u.scheme ≠ "https") := by
    rcases hs with h1 | h1
    · simp [h1]
    · simp [h1]
  constructor
  · by_cases h200 : status = 200
    · subst h200
      simp [doHTTPProbe, hval, hg]
    · simp [doHTTPProbe, hval, hg, h200]
  · intro h200
    simp [doHTTPProbe, hval, hg, h200]

/-- Claim C4, witness at a concrete input: a completed GET with status
503 fails and records the code 503 in the error text. -/
theorem doHTTPProbe_status_witness :
    ((doHTTPProbe "http://svc" 5 (.ok { scheme := "http" })
        { latency := 1, certValid := true, result := .ok 503 }).err = none ↔
      (503 : Nat) = 200) ∧
    ((503 : Nat) ≠ 200 →
      (doHTTPProbe "http://svc" 5 (.ok { scheme := "http" })
          { latency := 1, certValid := true, result := .ok 503 }).err =
        some (.other ("http://svc" ++ " returned non-200 resp: " ++ toString (503 : Nat)))) :=
  doHTTPProbe_status "http://svc" 5 { scheme := "http" }
    { latency := 1, certValid := true, result := .ok 503 } 503 (Or.inl rfl) rfl

/-- Claim C5: for an https target the probe's client transport carries
a TLS configuration with certificate verification disabled
(InsecureSkipVerify = true); for http no TLS configuration is applied;
consequently the https probe's whole result is independent of whether
the server's certificate would pass verification. -/
theorem doHTTPProbe_tls_policy (addr : String) (timeout : Nat) :
    ((mkClient "https" timeout).transport.tlsClientConfig =
      some { insecureSkipVerify := true }) ∧
    ((mkClient "http" timeout).transport.tlsClientConfig = none) ∧
    (∀ (o : HTTPOracle) (b : Bool),
      doHTTPProbe addr timeout (.ok { scheme := "https" })
          { latency := o.latency, certValid := b, result := o.result } =
        doHTTPProbe addr timeout (.ok { scheme := "https" }) o) := by
  refine ⟨rfl, rfl, ?_⟩
  intro o b
  simp [doHTTPProbe, clientGet, mkClient]

/-- Claim C6: the HTTP probe issues a GET request iff the address
parsed and the parsed scheme is exactly http or https; a parse failure
is returned as-is and an unsupported scheme as a fresh invalid-scheme
error, both before any request is issued. -/
theorem doHTTPProbe_parse_gate (addr : String) (timeout : Nat)
    (parse : Except GoError ParsedURL) (o : HTTPOracle) :
    ((doHTTPProbe addr timeout parse o).requested = true ↔
      ∃ u, parse = .ok u ∧ (u.scheme = "http" ∨ u.scheme = "https")) ∧
    (∀ e, parse = .error e →
      doHTTPProbe addr timeout parse o =
        { err := some e, errType := none, requested := false, elapsed := 0 }) ∧
    (∀ u, parse = .ok u → u.scheme ≠ "http" → u.scheme ≠ "https" →
      doHTTPProbe addr timeout parse o =
        { err := some (.other ("invalid url scheme: '" ++ u.scheme ++ "' in address"))
          errType := none, requested := false, elapsed := 0 }) := by
  refine ⟨?_, ?_, ?_⟩
  · rcases parse with e | u
    · simp [doHTTPProbe]
    · by_cases hv : u.scheme ≠ "http" ∧ u.scheme ≠ "https"
      · simp [doHTTPProbe, hv]
      · have hs : u.scheme = "http" ∨ u.scheme = "https" := by
          by_contra hc
          push_neg at hc
          exact hv ⟨hc.1, hc.2⟩
        rcases hres : (clientGet (mkClient u.scheme timeout) u.scheme o).result with e | status
        · simp [doHTTPProbe, hv, hres, hs]
        · by_cases h200 : status = 200
          · simp [doHTTPProbe, hv, hres, h200, hs]
          · simp [doHTTPProbe, hv, hres, h200, hs]
  · intro e he
    subst he
    rfl
  · intro u hu h1 h2
    subst hu
    simp only [doHTTPProbe]
    rw [if_pos ⟨h1, h2⟩]

/-- Claim C6, witness at a concrete input: an ftp scheme is rejected
with the invalid-scheme error and no request is issued. -/
theorem doHTTPProbe_parse_gate_witness :
    doHTTPProbe "ftp://svc" 5 (.ok { scheme := "ftp" })
        { latency := 1, certValid := true, result := .ok 200 } =
      { err := some (.other ("invalid url scheme: '" ++ "ftp" ++ "' in address"))
        errType := none, requested := false, elapsed := 0 } :=
  (doHTTPProbe_parse_gate "ftp://svc" 5 (.ok { scheme := "ftp" })
      { latency := 1, certValid := true, result := .ok 200 }).2.2
    { scheme := "ftp" } rfl (by decide) (by decide)

/-- Claim C8: every probe returns normally on every input: its result
is always either success (nil error) or a failure encoded as an error
value in the returned data; the probe functions are total. -/
theorem probes_never_raise (addr : String) (timeout : Nat) (od : DNSOracle)
    (ot : TCPOracle) (parse : Except GoError ParsedURL) (oh : HTTPOracle) :
    ((doDNSProbe addr timeout od).err = none ∨
      ∃ e, (doDNSProbe addr timeout od).err = some e) ∧
    ((doTCPProbe timeout ot).err = none ∨
      ∃ e, (doTCPProbe timeout ot).err = some e) ∧
    ((doHTTPProbe addr timeout parse oh).err = none ∨
      ∃ e, (doHTTPProbe addr timeout parse oh).err = some e) :=
  ⟨option_none_or_some _, option_none_or_some _, option_none_or_some _⟩

end Goldpinger
